import Mathlib

/-!
Verification of the shifusenpi-bot decision-fusion core against its
natural-language specification.

The Python sources embedded here (shallowly) are:
  * `src/async_brain.py`   — `_parse_scene_json`, `_analyze_scene_async`,
    the vision-loop cache update;
  * `src/vision_manager.py` — `_process_assisted`, `_decide_action`;
  * `src/hailo_vision.py`  — `get_navigation_data`, `_analyze_depth_zones`,
    `_check_critical_conditions`, `_filter_obstacles`, `_get_person_tracks`;
  * `src/autonomous_agent.py` — `_is_path_blocked`, `_avoid_obstacle`,
    `_investigate_behavior`, `_explore_behavior`,
    `_choose_exploration_direction`.

Python `float` values are modelled as `ℚ` (the claims compare only exact
literals, never results of float rounding), wall-clock timestamps are
threaded as an explicit `now : ℚ` parameter, and `random.*` draws are
threaded as an explicit record of pre-drawn values.
-/

namespace Shifusenpi

/-- JSON values as produced by Python's `json.loads`.  Python decodes JSON
numbers to `int`/`float`; both are modelled by a single `num : ℚ`
constructor.  Python's `json.loads` additionally accepts the non-standard
literals `NaN`, `Infinity` and `-Infinity`, modelled by the dedicated
constructors `nan` and `infinity`. -/
inductive Json where
  | null : Json
  | bool (b : Bool) : Json
  | num (q : ℚ) : Json
  | str (s : String) : Json
  | arr (xs : List Json) : Json
  | obj (kvs : List (String × Json)) : Json
  | nan : Json
  | infinity (neg : Bool) : Json
  deriving Repr

mutual

/-- Structural equality test on `Json` (Python `==` on decoded values,
restricted to the shapes the claims compare). -/
def Json.beq : Json → Json → Bool
  | .null, .null => true
  | .bool a, .bool b => a == b
  | .num a, .num b => a == b
  | .str a, .str b => a == b
  | .arr a, .arr b => Json.beqList a b
  | .obj a, .obj b => Json.beqObj a b
  | .nan, .nan => true
  | .infinity a, .infinity b => a == b
  | _, _ => false

/-- Elementwise equality of JSON arrays. -/
def Json.beqList : List Json → List Json → Bool
  | [], [] => true
  | x :: xs, y :: ys => Json.beq x y && Json.beqList xs ys
  | _, _ => false

/-- Elementwise equality of JSON object binding lists. -/
def Json.beqObj : List (String × Json) → List (String × Json) → Bool
  | [], [] => true
  | (k, v) :: xs, (l, w) :: ys => k == l && Json.beq v w && Json.beqObj xs ys
  | _, _ => false

end

instance : BEq Json := ⟨Json.beq⟩

/-- Python `dict.get(key)` on a dict built from a JSON object: the binding
list is kept in parse order, and a duplicated key stores its last value,
so lookup returns the value of the last matching binding. -/
def pyGet (kvs : List (String × Json)) (key : String) : Option Json :=
  match kvs with
  | [] => none
  | (k, v) :: rest =>
      match pyGet rest key with
      | some w => some w
      | none => if k = key then some v else none

/-- Python `dict.get(key, default)`. -/
def pyGetD (kvs : List (String × Json)) (key : String) (dflt : Json) : Json :=
  (pyGet kvs key).getD dflt

/-! ### A model of Python's `json.loads`

The decoder below implements the strict JSON grammar that Python's
`json.loads` accepts by default, plus its `NaN` / `Infinity` /
`-Infinity` extension.  Recursion is bounded by an explicit fuel
parameter that `json_loads` instantiates generously from the input
length, so fuel never runs out on inputs the grammar accepts.  A
decode result of `none` models a raised `json.JSONDecodeError`.
(Deviation kept deliberately: lone `\uXXXX` surrogate escapes are
rejected here because a Lean `Char` cannot carry them; no claim
involves such inputs.) -/

/-- Skip JSON whitespace (space, tab, newline, carriage return). -/
def skipWs : List Char → List Char
  | c :: rest =>
      if c = ' ' ∨ c = '\t' ∨ c = '\n' ∨ c = '\r' then skipWs rest else c :: rest
  | [] => []

/-- Value of a hex digit, if any. -/
def hexVal? (c : Char) : Option Nat :=
  if '0' ≤ c ∧ c ≤ '9' then some (c.toNat - 48)
  else if 'a' ≤ c ∧ c ≤ 'f' then some (c.toNat - 87)
  else if 'A' ≤ c ∧ c ≤ 'F' then some (c.toNat - 55)
  else none

/-- Read exactly four hex digits. -/
def parseHex4 : List Char → Option (Nat × List Char)
  | c1 :: c2 :: c3 :: c4 :: rest =>
      match hexVal? c1, hexVal? c2, hexVal? c3, hexVal? c4 with
      | some a, some b, some c, some d => some (((a * 16 + b) * 16 + c) * 16 + d, rest)
      | _, _, _, _ => none
  | _ => none

/-- Take a maximal run of decimal digits. -/
def takeDigits : List Char → List Char × List Char
  | c :: rest =>
      if c.isDigit then
        let p := takeDigits rest
        (c :: p.1, p.2)
      else ([], c :: rest)
  | [] => ([], [])

/-- Numeric value of a digit run. -/
def digitsVal (ds : List Char) : Nat :=
  ds.foldl (fun n c => n * 10 + (c.toNat - 48)) 0

/-- Integer part of a JSON number: `0`, or a nonzero digit followed by
digits (the grammar never consumes a leading zero followed by more
digits). -/
def parseIntPart : List Char → Option (Nat × List Char)
  | '0' :: rest => some (0, rest)
  | c :: rest =>
      if c.isDigit then
        let p := takeDigits rest
        some (digitsVal (c :: p.1), p.2)
      else none
  | [] => none

/-- Rational value of a parsed number token: sign, integer part, fraction
digits and decimal exponent, assembled with a single `mkRat` so that the
value is in normal form (matching float equality on the literals the
claims use). -/
def buildNum (neg : Bool) (ip : Nat) (frac : List Char) (e : ℤ) : ℚ :=
  let m : Nat := ip * 10 ^ frac.length + digitsVal frac
  let sm : ℤ := if neg then -(m : ℤ) else (m : ℤ)
  let e2 : ℤ := e - frac.length
  if 0 ≤ e2 then mkRat (sm * ((10 : ℕ) ^ e2.toNat : ℕ)) 1
  else mkRat sm ((10 : ℕ) ^ (-e2).toNat)

/-- Exponent tail of a number: optional sign then digits; if no digit
follows, the exponent marker is left unconsumed, as in the JSON number
grammar. -/
def parseExpTail (r2 orig : List Char) : ℤ × List Char :=
  let sgn : Bool × List Char :=
    match r2 with
    | '+' :: r3 => (false, r3)
    | '-' :: r3 => (true, r3)
    | _ => (false, r2)
  let p := takeDigits sgn.2
  if p.1 = [] then (0, orig)
  else if sgn.1 then (-(digitsVal p.1 : ℤ), p.2)
  else ((digitsVal p.1 : ℤ), p.2)

/-- Unsigned JSON number after the optional minus sign: integer part,
optional `.digits`, optional exponent. -/
def parseNumberCore (neg : Bool) (cs : List Char) : Option (ℚ × List Char) :=
  match parseIntPart cs with
  | none => none
  | some (i, r) =>
      let fp : List Char × List Char :=
        match r with
        | '.' :: r2 =>
            let p := takeDigits r2
            if p.1 = [] then ([], r) else (p.1, p.2)
        | _ => ([], r)
      let ep : ℤ × List Char :=
        match fp.2 with
        | 'e' :: r2 => parseExpTail r2 fp.2
        | 'E' :: r2 => parseExpTail r2 fp.2
        | _ => (0, fp.2)
      some (buildNum neg i fp.1 ep.1, ep.2)

/-- A JSON number token, including `-Infinity`. -/
def parseNumber (cs : List Char) : Option (Json × List Char) :=
  match cs with
  | '-' :: 'I' :: 'n' :: 'f' :: 'i' :: 'n' :: 'i' :: 't' :: 'y' :: rest =>
      some (.infinity true, rest)
  | '-' :: rest => (parseNumberCore true rest).map (fun p => (.num p.1, p.2))
  | _ => (parseNumberCore false cs).map (fun p => (.num p.1, p.2))

mutual

/-- One JSON value, leading whitespace allowed. -/
def parseValue : Nat → List Char → Option (Json × List Char)
  | 0, _ => none
  | fuel + 1, cs =>
      match skipWs cs with
      | 'n' :: 'u' :: 'l' :: 'l' :: rest => some (.null, rest)
      | 't' :: 'r' :: 'u' :: 'e' :: rest => some (.bool true, rest)
      | 'f' :: 'a' :: 'l' :: 's' :: 'e' :: rest => some (.bool false, rest)
      | 'N' :: 'a' :: 'N' :: rest => some (.nan, rest)
      | 'I' :: 'n' :: 'f' :: 'i' :: 'n' :: 'i' :: 't' :: 'y' :: rest =>
          some (.infinity false, rest)
      | '"' :: rest => (parseStringBody fuel [] rest).map (fun p => (.str p.1, p.2))
      | '[' :: rest => (parseElems fuel rest).map (fun p => (.arr p.1, p.2))
      | '{' :: rest => (parseMembers fuel rest).map (fun p => (.obj p.1, p.2))
      | cs1 => parseNumber cs1

/-- Array body after `[`: empty, or first element then tail. -/
def parseElems : Nat → List Char → Option (List Json × List Char)
  | 0, _ => none
  | fuel + 1, cs =>
      match skipWs cs with
      | ']' :: rest => some ([], rest)
      | cs1 =>
          match parseValue fuel cs1 with
          | some (v, r) => parseElemsTail fuel [v] r
          | none => none

/-- Array tail: `, value` repeated, then `]`. -/
def parseElemsTail : Nat → List Json → List Char → Option (List Json × List Char)
  | 0, _, _ => none
  | fuel + 1, acc, cs =>
      match skipWs cs with
      | ']' :: rest => some (acc.reverse, rest)
      | ',' :: r2 =>
          match parseValue fuel r2 with
          | some (v, r) => parseElemsTail fuel (v :: acc) r
          | none => none
      | _ => none

/-- Object body after the opening brace: empty, or first member then tail. -/
def parseMembers : Nat → List Char → Option (List (String × Json) × List Char)
  | 0, _ => none
  | fuel + 1, cs =>
      match skipWs cs with
      | '}' :: rest => some ([], rest)
      | '"' :: rest =>
          match parseStringBody fuel [] rest with
          | some (k, r) => parseMemberValue fuel [] k r
          | none => none
      | _ => none

/-- Object tail: `, "key": value` repeated, then the closing brace. -/
def parseMembersTail :
    Nat → List (String × Json) → List Char → Option (List (String × Json) × List Char)
  | 0, _, _ => none
  | fuel + 1, acc, cs =>
      match skipWs cs with
      | '}' :: rest => some (acc.reverse, rest)
      | ',' :: r2 =>
          match skipWs r2 with
          | '"' :: r3 =>
              match parseStringBody fuel [] r3 with
              | some (k, r) => parseMemberValue fuel acc k r
              | none => none
          | _ => none
      | _ => none

/-- After a member key: expect `:` then the value, then continue the tail. -/
def parseMemberValue :
    Nat → List (String × Json) → String → List Char → Option (List (String × Json) × List Char)
  | 0, _, _, _ => none
  | fuel + 1, acc, k, cs =>
      match skipWs cs with
      | ':' :: r2 =>
          match parseValue fuel r2 with
          | some (v, r) => parseMembersTail fuel ((k, v) :: acc) r
          | none => none
      | _ => none

/-- String body after the opening quote, with JSON escapes; rejects raw
control characters as Python's strict mode does. -/
def parseStringBody : Nat → List Char → List Char → Option (String × List Char)
  | 0, _, _ => none
  | fuel + 1, acc, cs =>
      match cs with
      | [] => none
      | '"' :: rest => some (String.mk acc.reverse, rest)
      | '\\' :: esc =>
          match esc with
          | '"' :: r => parseStringBody fuel ('"' :: acc) r
          | '\\' :: r => parseStringBody fuel ('\\' :: acc) r
          | '/' :: r => parseStringBody fuel ('/' :: acc) r
          | 'b' :: r => parseStringBody fuel (Char.ofNat 8 :: acc) r
          | 'f' :: r => parseStringBody fuel (Char.ofNat 12 :: acc) r
          | 'n' :: r => parseStringBody fuel ('\n' :: acc) r
          | 'r' :: r => parseStringBody fuel ('\r' :: acc) r
          | 't' :: r => parseStringBody fuel ('\t' :: acc) r
          | 'u' :: r =>
              match parseHex4 r with
              | some (n, r1) =>
                  if 0xD800 ≤ n ∧ n ≤ 0xDBFF then
                    match r1 with
                    | '\\' :: 'u' :: r2 =>
                        match parseHex4 r2 with
                        | some (m, r3) =>
                            if 0xDC00 ≤ m ∧ m ≤ 0xDFFF then
                              parseStringBody fuel
                                (Char.ofNat (0x10000 + (n - 0xD800) * 0x400 + (m - 0xDC00)) :: acc) r3
                            else none
                        | none => none
                    | _ => none
                  else if 0xDC00 ≤ n ∧ n ≤ 0xDFFF then none
                  else parseStringBody fuel (Char.ofNat n :: acc) r1
              | none => none
          | _ => none
      | c :: rest =>
          if c.toNat < 0x20 then none else parseStringBody fuel (c :: acc) rest

end

/-- Model of Python `json.loads`: one JSON value, then only trailing
whitespace (anything left over is the `Extra data` decode error). -/
def json_loads (s : String) : Option Json :=
  match parseValue (4 * s.length + 16) s.data with
  | some (j, rest) => if skipWs rest = [] then some j else none
  | none => none

/-! ### `async_brain._parse_scene_json` -/

/-- Whether `pre` is a prefix of `cs`. -/
def isPrefixL : List Char → List Char → Bool
  | [], _ => true
  | _ :: _, [] => false
  | p :: ps, c :: cs => p = c && isPrefixL ps cs

/-- Python `str.split(sep)` for a nonempty separator: scan left to right,
cutting at each non-overlapping occurrence.  Fuel is instantiated with
the input length plus one, which the scan (consuming at least one
character per step) never exhausts. -/
def splitOnFuel (sep : List Char) : Nat → List Char → List Char → List (List Char)
  | 0, cs, acc => [acc.reverse ++ cs]
  | fuel + 1, cs, acc =>
      match cs with
      | [] => [acc.reverse]
      | c :: rest =>
          if isPrefixL sep cs then
            acc.reverse :: splitOnFuel sep fuel (cs.drop sep.length) []
          else
            splitOnFuel sep fuel rest (c :: acc)

/-- Python `s.split(sep)` (nonempty `sep`). -/
def pySplit (s sep : String) : List String :=
  (splitOnFuel sep.data (s.data.length + 1) s.data []).map String.mk

/-- The ASCII whitespace stripped by Python `str.strip()`. -/
def isPySpace (c : Char) : Bool :=
  c = ' ' ∨ c = '\t' ∨ c = '\n' ∨ c = '\r' ∨ c = Char.ofNat 11 ∨ c = Char.ofNat 12

/-- Python `str.strip()`. -/
def pyStrip (s : String) : String :=
  String.mk (((s.data.dropWhile isPySpace).reverse.dropWhile isPySpace).reverse)

/-- Python's `sub in s` substring test for a nonempty `sub` (`sub` occurs
in `s` iff splitting on it yields more than one part). -/
def hasSub (s sub : String) : Bool :=
  (pySplit s sub).length > 1

/-- The markdown-fence extraction prefix of `_parse_scene_json`
(`async_brain.py` lines 269-273): if the text contains "```json" take
what stands between that marker and the next "```", else if it contains
"```" take what stands between the first and second "```"; strip the
result.  `content` is REASSIGNED to the extracted text in the source, so
everything downstream (including the degraded fallback) sees the
extracted text, not the original input. -/
def extract_fenced (content : String) : String :=
  if hasSub content "```json" then
    pyStrip ((pySplit ((pySplit content "```json").getD 1 "") "```").getD 0 "")
  else if hasSub content "```" then
    pyStrip ((pySplit ((pySplit content "```").getD 1 "") "```").getD 0 "")
  else content

/-- `SceneUnderstanding` dataclass (`async_brain.py` lines 24-34).  The
dataclass declares Python types but `_parse_scene_json` stores whatever
the decoded JSON held under each key, so every field except the
wall-clock timestamp is modelled as a raw `Json` value. -/
structure SceneUnderstanding where
  timestamp : ℚ
  objects : Json
  scene_type : Json
  obstacles : Json
  people_count : Json
  safe_directions : Json
  description : Json
  confidence : Json
  deriving Repr

/-- Python exceptions that escape the modelled code. -/
inductive PyError where
  | attributeError : PyError
  deriving Repr, DecidableEq

/-- The snapshot built from a decoded JSON object: each field is the
value stored under its key, with the explicit default for a missing key
(`async_brain.py` lines 277-286). -/
def build_scene (now : ℚ) (kvs : List (String × Json)) : SceneUnderstanding where
  timestamp := now
  objects := pyGetD kvs "objects" (.arr [])
  scene_type := pyGetD kvs "scene_type" (.str "unknown")
  obstacles := pyGetD kvs "obstacles" (.arr [])
  people_count := pyGetD kvs "people_count" (.num (mkRat 0 1))
  safe_directions := pyGetD kvs "safe_directions" (.arr [])
  description := pyGetD kvs "description" (.str "")
  confidence := pyGetD kvs "confidence" (.num (mkRat 1 2))

/-- The degraded fallback snapshot built when JSON decoding fails
(`async_brain.py` lines 288-300): description is the (already
fence-extracted) text, confidence is the fixed 0.3. -/
def degraded_scene (now : ℚ) (content : String) : SceneUnderstanding where
  timestamp := now
  objects := .arr []
  scene_type := .str "unknown"
  obstacles := .arr []
  people_count := .num (mkRat 0 1)
  safe_directions := .arr []
  description := .str content
  confidence := .num (mkRat 3 10)

/-- `AsyncRobotBrain._parse_scene_json` (`async_brain.py` lines 266-300).
The `try` block extracts a fenced code block, decodes JSON and reads the
keys with `data.get`; the `except` clause catches ONLY
`json.JSONDecodeError`, so when decoding succeeds with a value that is
not a JSON object, the `data.get` attribute lookup raises an
`AttributeError` that propagates to the caller. -/
def parse_scene_json (now : ℚ) (raw : String) : Except PyError SceneUnderstanding :=
  let content := extract_fenced raw
  match json_loads content with
  | none => .ok (degraded_scene now content)
  | some (.obj kvs) => .ok (build_scene now kvs)
  | some _ => .error .attributeError

/-! ### `hailo_vision.py` — real-time obstacle monitor -/

/-- Detection priority classes (`hailo_vision.py` lines 18-24). -/
inductive DetectionClass where
  | critical : DetectionClass
  | warning : DetectionClass
  | trackable : DetectionClass
  | neutral : DetectionClass
  deriving Repr, DecidableEq

/-- `Detection` dataclass (`hailo_vision.py` lines 27-36). -/
structure Detection where
  label : String
  confidence : ℚ
  bbox : ℤ × ℤ × ℤ × ℤ
  track_id : Option ℤ := none
  depth : Option ℚ := none
  priority : DetectionClass := .neutral
  deriving Repr, DecidableEq

/-- A depth map is a rectangular grid of relative depth values (numpy
array of shape `(h, w)`). -/
abbrev DepthMap := List (List ℚ)

/-- `NavigationData` dataclass (`hailo_vision.py` lines 39-47).  The
`safe_directions` dict is modelled as a binding list in insertion order
(Python dicts iterate in insertion order, which `max` over the dict
observes). -/
structure NavigationData where
  obstacles : List Detection
  safe_directions : List (String × ℚ)
  critical_alerts : List String
  depth_center : Option ℚ := none
  person_tracks : List ℤ := []
  deriving Repr

/-- The processor state `get_navigation_data` reads. -/
structure HailoState where
  latest_detections : List Detection
  latest_depth_map : Option DepthMap

/-- Mean of a list of values (`np.mean` over a zone). -/
def listMean (xs : List ℚ) : ℚ :=
  xs.sum / xs.length

/-- The values of a vertical band of columns `[lo, hi)` across all rows. -/
def zoneSlice (dm : DepthMap) (lo hi : Nat) : List ℚ :=
  (dm.map (fun row => (row.drop lo).take (hi - lo))).flatten

/-- `HailoVision._analyze_depth_zones` (`hailo_vision.py` lines 252-275):
with no depth map available it returns the all-zero three-direction map
(not an empty one); otherwise the mean depth of the left, center and
right thirds of the frame, keyed in that insertion order. -/
def analyze_depth_zones (dm? : Option DepthMap) : List (String × ℚ) :=
  match dm? with
  | none => [("LEFT", 0), ("CENTER", 0), ("RIGHT", 0)]
  | some dm =>
      let w := (dm.headD []).length
      [("LEFT", listMean (zoneSlice dm 0 (w / 3))),
       ("CENTER", listMean (zoneSlice dm (w / 3) (2 * w / 3))),
       ("RIGHT", listMean (zoneSlice dm (2 * w / 3) w))]

/-- The alert text for a critical detection (`hailo_vision.py` line 284).
The source interpolates the detection confidence with `:.2f`; the numeric
rendering is omitted here since no claim inspects it — only the label
part and the list length are ever consumed. -/
def critical_alert_msg (d : Detection) : String :=
  "CRITICAL: " ++ d.label ++ " detected"

/-- Population variance of a list (`np.std(xs) > t` iff the variance
exceeds `t^2`, which is how the cliff threshold is phrased below to stay
inside `ℚ`). -/
def listVariance (xs : List ℚ) : ℚ :=
  listMean (xs.map (fun x => x * x)) - listMean xs * listMean xs

/-- `HailoVision._check_critical_conditions` (`hailo_vision.py` lines
277-293): one alert per critical-priority detection, plus a cliff alert
when the middle row of the depth map has standard deviation above 50
(equivalently variance above 2500). -/
def check_critical_conditions (dets : List Detection) (dm? : Option DepthMap) : List String :=
  let alerts := (dets.filter (fun d => d.priority == DetectionClass.critical)).map
    critical_alert_msg
  match dm? with
  | none => alerts
  | some dm =>
      let row := dm.getD (dm.length / 2) []
      if listVariance row > 2500 then alerts ++ ["CRITICAL: Possible edge/cliff detected"]
      else alerts

/-- `HailoVision._filter_obstacles` (`hailo_vision.py` lines 244-250). -/
def filter_obstacles (dets : List Detection) : List Detection :=
  dets.filter (fun d =>
    d.priority == DetectionClass.critical || d.priority == DetectionClass.warning)

/-- `HailoVision._get_person_tracks` (`hailo_vision.py` lines 295-301). -/
def get_person_tracks (dets : List Detection) : List ℤ :=
  dets.filterMap (fun d => if d.label = "person" then d.track_id else none)

/-- `HailoVision.get_navigation_data` (`hailo_vision.py` lines 218-242). -/
def get_navigation_data (st : HailoState) : NavigationData where
  obstacles := filter_obstacles st.latest_detections
  safe_directions := analyze_depth_zones st.latest_depth_map
  critical_alerts := check_critical_conditions st.latest_detections st.latest_depth_map
  depth_center :=
    match st.latest_depth_map with
    | none => none
    | some dm =>
        let w := (dm.headD []).length
        some ((dm.getD (dm.length / 2) []).getD (w / 2) 0)
  person_tracks := get_person_tracks st.latest_detections

/-! ### `vision_manager.py` — mode arbiter / decision fusion -/

/-- `VisionStrategy` dataclass (`vision_manager.py` lines 24-32). -/
structure VisionStrategy where
  scene_description : String
  navigation_guidance : String
  recommended_action : String
  confidence : ℚ
  timestamp : ℚ
  deriving Repr, DecidableEq

/-- A command dict sent through the command callback: the `action` verb
plus the optional `reason` (stops) and `source` (diagnostics) keys that
the various `return` sites attach. -/
structure Cmd where
  action : String
  reason : Option String := none
  source : Option String := none
  deriving Repr, DecidableEq

/-- `VisionManager._process_assisted` (`vision_manager.py` lines
195-213), as the list of commands it sends: nothing without a Hailo
backend; otherwise one emergency STOP per critical alert, tagged with
that alert as the reason, and never any other command (the obstacle
branch only logs). -/
def process_assisted (hailo_present : Bool) (nav : NavigationData) : List Cmd :=
  if !hailo_present then []
  else nav.critical_alerts.map (fun alert => { action := "STOP", reason := some alert })

/-- Python `max(iterable, key=f)` over dict keys: the first key (in
iteration order) whose value all later values fail to strictly exceed. -/
def maxKeyGo (bk : String) (bv : ℚ) : List (String × ℚ) → String
  | [] => bk
  | (k, v) :: rest => if bv < v then maxKeyGo k v rest else maxKeyGo bk bv rest

/-- First maximal key of a nonempty binding list, `none` when empty
(Python `max` would raise `ValueError`, but every call site guards on
non-emptiness). -/
def pyMaxKeyByVal : List (String × ℚ) → Option String
  | [] => none
  | (k, v) :: rest => some (maxKeyGo k v rest)

/-- Python dict subscript `d[k]` on the `safe_directions` binding list
(last binding wins, as in a Python dict built with repeated stores). -/
def dictVal (kvs : List (String × ℚ)) (key : String) : Option ℚ :=
  match kvs with
  | [] => none
  | (k, v) :: rest =>
      match dictVal rest key with
      | some w => some w
      | none => if k = key then some v else none

/-- Priority 1 test of `_decide_action`: a present `nav_data` with a
non-empty critical-alert list. -/
def crit_alert_fires (nav? : Option NavigationData) : Bool :=
  match nav? with
  | some nav => !nav.critical_alerts.isEmpty
  | none => false

/-- Priority 3 of `_decide_action` (`vision_manager.py` lines 325-339):
pick the direction of maximum clearance (first maximum in the dict's
iteration order), map LEFT/RIGHT to turns, CENTER to FORWARD only above
the 100 clearance threshold, and STOP with `no_safe_path` otherwise. -/
def hailo_choice (nav : NavigationData) : Option Cmd :=
  if nav.safe_directions.isEmpty then none
  else
    match pyMaxKeyByVal nav.safe_directions with
    | none => none
    | some safest =>
        if safest = "LEFT" then some { action := "LEFT", source := some "hailo" }
        else if safest = "RIGHT" then some { action := "RIGHT", source := some "hailo" }
        else if safest = "CENTER" then
          match dictVal nav.safe_directions "CENTER" with
          | some v =>
              if v > 100 then some { action := "FORWARD", source := some "hailo" }
              else some { action := "STOP", reason := some "no_safe_path" }
          | none => some { action := "STOP", reason := some "no_safe_path" }
        else some { action := "STOP", reason := some "no_safe_path" }

/-- The hailo fallback of `_decide_action`: priorities 3 and 4. -/
def hailo_fallback (nav? : Option NavigationData) : Option Cmd :=
  match nav? with
  | some nav => hailo_choice nav
  | none => none

/-- `VisionManager._decide_action` (`vision_manager.py` lines 306-342):
priority 1 critical alerts → STOP with reason; priority 2 a non-"ASSESS"
strategy action tagged `source: vlm`; priority 3 the Hailo safest
direction; priority 4 no command. -/
def decide_action (strategy : Option VisionStrategy) (nav? : Option NavigationData) :
    Option Cmd :=
  if crit_alert_fires nav? then some { action := "STOP", reason := some "critical_alert" }
  else
    match strategy with
    | some st =>
        if st.recommended_action ≠ "ASSESS" then
          some { action := st.recommended_action, source := some "vlm" }
        else hailo_fallback nav?
    | none => hailo_fallback nav?

/-! ### `async_brain._analyze_scene_async` and the vision-loop cache -/

/-- Outcome of the single HTTP request a scene query issues: a timeout,
any other raised exception, or a response with a status code and a
message content. -/
inductive SceneRequestOutcome where
  | timeout : SceneRequestOutcome
  | exn : SceneRequestOutcome
  | response (status : Nat) (content : String) : SceneRequestOutcome
  deriving Repr, DecidableEq

/-- `AsyncRobotBrain._analyze_scene_async` (`async_brain.py` lines
179-264): the whole body sits in one `try` whose `except Exception`
returns `None`, so a timeout or any raised error yields `None`; a
non-200 status yields `None`; a 200 response is parsed, and even a
parse-raised `AttributeError` is swallowed into `None`.  No retry is
issued — the function performs exactly the one request it is given the
outcome of. -/
def analyze_scene_async (now : ℚ) (o : SceneRequestOutcome) : Option SceneUnderstanding :=
  match o with
  | .timeout => none
  | .exn => none
  | .response status content =>
      if status = 200 then
        match parse_scene_json now content with
        | .ok s => some s
        | .error _ => none
      else none

/-- One iteration of `AsyncRobotBrain._vision_loop` (`async_brain.py`
lines 147-177) acting on the `latest_scene` cache: the cache is
overwritten only when the query returned a scene (`if scene:`), so a
failed cycle leaves the last good snapshot in place. -/
def vision_cycle (latest : Option SceneUnderstanding) (now : ℚ)
    (o : SceneRequestOutcome) : Option SceneUnderstanding :=
  match analyze_scene_async now o with
  | some s => some s
  | none => latest

/-- Whether a request outcome is a failure (timeout, raised exception, or
non-200 status). -/
def SceneRequestOutcome.isFailure : SceneRequestOutcome → Prop
  | .timeout => True
  | .exn => True
  | .response status _ => status ≠ 200

instance : DecidablePred SceneRequestOutcome.isFailure := by
  intro o
  cases o <;> simp [SceneRequestOutcome.isFailure] <;> infer_instance

/-! ### `autonomous_agent.py` — autonomous goal engine

The agent reads `SceneUnderstanding` fields through the scene schema
(`obj['name']`, `obj.get('position')`, `obj.get('distance')`, string
lists for obstacles and safe directions), so its inputs are modelled by
the typed view `AgentScene` below.  Wall-clock calls are threaded as a
`now` parameter and every `random.*` draw as a field of a pre-drawn
`Rng` record. -/

/-- One entry of `scene.objects` as the agent consumes it: `obj['name']`
is read unconditionally, `position` and `distance` through `dict.get`. -/
structure SceneObj where
  name : String
  position : Option String := none
  distance : Option String := none
  deriving Repr, DecidableEq

/-- Typed view of a scene snapshot under the documented schema. -/
structure AgentScene where
  objects : List SceneObj := []
  scene_type : String := "unknown"
  obstacles : List String := []
  people_count : Nat := 0
  safe_directions : List String := []
  description : String := ""
  confidence : ℚ := mkRat 1 2
  deriving Repr, DecidableEq

/-- `AgentMode` enum (`autonomous_agent.py` lines 19-26). -/
inductive AgentMode where
  | exploring : AgentMode
  | investigating : AgentMode
  | stuck : AgentMode
  | resting : AgentMode
  | following : AgentMode
  | fleeing : AgentMode
  deriving Repr, DecidableEq

/-- `AgentGoal` dataclass (`autonomous_agent.py` lines 29-35). -/
structure AgentGoal where
  type : String
  target : Option String := none
  priority : ℤ := 0
  created_at : ℚ := 0
  deriving Repr, DecidableEq

/-- The mutable agent fields the embedded behaviors read or write. -/
structure AgentState where
  personality : String := "curious"
  mode : AgentMode := .exploring
  current_goal : Option AgentGoal := none
  interesting_objects : List String := []
  stuck_counter : Nat := 0
  exploration_bias : String := "random"
  objects_investigated : Nat := 0
  close_calls : Nat := 0
  deriving Repr, DecidableEq

/-- Python `set.add`: adding an element already present leaves the set
unchanged. -/
def pySetAdd (s : List String) (x : String) : List String :=
  if x ∈ s then s else s ++ [x]

/-- A movement action dict (`{"command": ..., "duration"/"angle": ...}`). -/
structure ActionDict where
  command : String
  duration : Option ℚ := none
  angle : Option ℚ := none
  deriving Repr, DecidableEq

/-- `self.max_stuck_count` (`autonomous_agent.py` line 79). -/
def max_stuck_count : Nat := 5

/-- `AutonomousAgent._is_path_blocked` (`autonomous_agent.py` lines
375-382): a center-positioned, near-distance object of one of the four
blocking classes, or more than two reported obstacles. -/
def is_path_blocked (scene : AgentScene) : Bool :=
  scene.objects.any (fun o =>
    o.position == some "center" && o.distance == some "near" &&
      (["chair", "table", "wall", "person"] : List String).contains o.name)
  || scene.obstacles.length > 2

/-- `AutonomousAgent._avoid_obstacle` (`autonomous_agent.py` lines
384-405): bump the stuck and close-call counters; at the fifth
consecutive trigger rest for 5 seconds and reset the counter; otherwise
turn 45° toward a listed safe direction, or back up for 1 second when
none is listed. -/
def avoid_obstacle (st : AgentState) (scene : AgentScene) : AgentState × ActionDict :=
  let st1 := { st with stuck_counter := st.stuck_counter + 1,
                       close_calls := st.close_calls + 1 }
  if st1.stuck_counter ≥ max_stuck_count then
    ({ st1 with mode := .stuck, stuck_counter := 0 },
     { command := "STOP", duration := some 5 })
  else if scene.safe_directions.contains "left" then
    (st1, { command := "TURN_LEFT", angle := some 45 })
  else if scene.safe_directions.contains "right" then
    (st1, { command := "TURN_RIGHT", angle := some 45 })
  else
    (st1, { command := "BACKWARD", duration := some 1 })

/-- Pre-drawn values for the `random.*` calls of the exploration and
investigation behaviors, one field per call site. -/
structure Rng where
  r_curious : ℚ := 1
  obj_idx : Nat := 0
  r_chaotic : ℚ := 1
  spin_duration : ℚ := 1
  r_forward : ℚ := 1
  safe_idx : Nat := 0
  bias_idx : Nat := 0
  forward_duration : ℚ := 1
  left_angle : ℚ := 45
  right_angle : ℚ := 45
  backward_duration : ℚ := 1
  deriving Repr

/-- The personality-bias fallback of `_choose_exploration_direction`
(`autonomous_agent.py` lines 365-373). -/
def bias_fallback (rng : Rng) (st : AgentState) : String :=
  let choices : List String :=
    if st.exploration_bias = "left" then ["FORWARD", "LEFT", "LEFT", "RIGHT"]
    else if st.exploration_bias = "right" then ["FORWARD", "RIGHT", "RIGHT", "LEFT"]
    else ["FORWARD", "FORWARD", "LEFT", "RIGHT", "BACKWARD"]
  choices.getD (rng.bias_idx % choices.length) ""

/-- `AutonomousAgent._choose_exploration_direction` (`autonomous_agent.py`
lines 342-373): with listed safe directions, prefer "forward" with
probability 0.6 when listed, else draw one safe direction; a drawn value
outside left/right/forward falls through to the personality-bias random
fallback, as does the no-scene / no-safe-direction case. -/
def choose_exploration_direction (rng : Rng) (st : AgentState)
    (scene? : Option AgentScene) : String :=
  match scene? with
  | some scene =>
      if scene.safe_directions ≠ [] then
        if scene.safe_directions.contains "forward" ∧ rng.r_forward < mkRat 6 10 then
          "FORWARD"
        else
          let choice :=
            scene.safe_directions.getD (rng.safe_idx % scene.safe_directions.length) ""
          if choice = "left" then "LEFT"
          else if choice = "right" then "RIGHT"
          else if choice = "forward" then "FORWARD"
          else bias_fallback rng st
      else bias_fallback rng st
  | none => bias_fallback rng st

/-- The default random-walk tail of `_explore_behavior`
(`autonomous_agent.py` lines 233-245); a direction outside the four
handled verbs would fall off the end of the Python function (`None`). -/
def explore_default (rng : Rng) (st : AgentState) (scene? : Option AgentScene) :
    AgentState × Option ActionDict :=
  let direction := choose_exploration_direction rng st scene?
  if direction = "FORWARD" then
    (st, some { command := "FORWARD", duration := some rng.forward_duration })
  else if direction = "LEFT" then
    (st, some { command := "TURN_LEFT", angle := some rng.left_angle })
  else if direction = "RIGHT" then
    (st, some { command := "TURN_RIGHT", angle := some rng.right_angle })
  else if direction = "BACKWARD" then
    (st, some { command := "BACKWARD", duration := some rng.backward_duration })
  else (st, none)

mutual

/-- `AutonomousAgent._explore_behavior` (`autonomous_agent.py` lines
196-245).  "curious" may switch to investigating a randomly chosen
visible object (probability 0.3); "cautious" rests 3 seconds once the
stuck counter exceeds 2; "chaotic" spins with probability 0.1; otherwise
the random walk.  The mutual recursion with the investigate behavior is
bounded by `fuel`; the Python call graph reaches depth at most three, so
any fuel of at least four is exact. -/
def explore_behavior : Nat → Rng → ℚ → AgentState → Option AgentScene →
    AgentState × Option ActionDict
  | 0, _, _, st, _ => (st, none)
  | fuel + 1, rng, now, st, scene? =>
      if st.personality = "curious" then
        match scene? with
        | some sc =>
            if sc.objects ≠ [] ∧ rng.r_curious < mkRat 3 10 then
              let obj := sc.objects.getD (rng.obj_idx % sc.objects.length)
                { name := "" }
              let g1 : AgentGoal :=
                { type := "investigate", target := some obj.name,
                  priority := 6, created_at := now }
              let st1 := { st with current_goal := some g1 }
              investigate_behavior fuel rng now st1 scene?
            else explore_default rng st scene?
        | none => explore_default rng st scene?
      else if st.personality = "cautious" then
        if st.stuck_counter > 2 then (st, some { command := "STOP", duration := some 3 })
        else explore_default rng st scene?
      else if st.personality = "chaotic" then
        if rng.r_chaotic < mkRat 1 10 then
          (st, some { command := "SPIN", duration := some rng.spin_duration })
        else explore_default rng st scene?
      else explore_default rng st scene?

/-- `AutonomousAgent._investigate_behavior` (`autonomous_agent.py` lines
247-301).  Without a scene or a goal, fall back to exploring; when the
target is not among the scene's object names (in particular when the
goal has no target at all — no string name equals Python `None`), the
goal reverts to explore; a left/right target gets a 20° corrective turn;
a centered near target is marked investigated — the set `add` and the
UNCONDITIONAL counter increment — the goal reverts to explore and the
agent stops 2 seconds (the scripted question to the personality
responder touches no agent state); a centered far target advances; any
other position value falls off the end of the Python function. -/
def investigate_behavior : Nat → Rng → ℚ → AgentState → Option AgentScene →
    AgentState × Option ActionDict
  | 0, _, _, st, _ => (st, none)
  | fuel + 1, rng, now, st, scene? =>
      match scene?, st.current_goal with
      | none, _ => explore_behavior fuel rng now st none
      | some sc, none => explore_behavior fuel rng now st (some sc)
      | some sc, some goal =>
          match goal.target with
          | none =>
              let g1 : AgentGoal :=
                { type := "explore", target := none, priority := 5,
                  created_at := now }
              let st1 := { st with current_goal := some g1 }
              explore_behavior fuel rng now st1 (some sc)
          | some t =>
              match sc.objects.find? (fun o => o.name = t) with
              | none =>
                  let g1 : AgentGoal :=
                    { type := "explore", target := none,
                      priority := 5, created_at := now }
                  let st1 := { st with current_goal := some g1 }
                  explore_behavior fuel rng now st1 (some sc)
              | some tobj =>
                  let position := tobj.position.getD "center"
                  if position = "left" then
                    (st, some { command := "TURN_LEFT", angle := some 20 })
                  else if position = "right" then
                    (st, some { command := "TURN_RIGHT", angle := some 20 })
                  else if position = "center" then
                    if tobj.distance == some "near" then
                      let g1 : AgentGoal :=
                        { type := "explore", target := none,
                          priority := 5, created_at := now }
                      let st1 := { st with
                        interesting_objects := pySetAdd st.interesting_objects t,
                        objects_investigated := st.objects_investigated + 1,
                        current_goal := some g1 }
                      (st1, some { command := "STOP", duration := some 2 })
                    else (st, some { command := "FORWARD", duration := some 1 })
                  else (st, none)

end

/-- The escape action of a non-final obstacle-avoidance trigger, as the
spec words it: a 45° turn toward a listed safe direction or, absent one,
a timed (1 second) backward command. -/
def escape_action (scene : AgentScene) (a : ActionDict) : Prop :=
  (scene.safe_directions.contains "left" = true ∧
    a = { command := "TURN_LEFT", angle := some 45 }) ∨
  (scene.safe_directions.contains "left" = false ∧
    scene.safe_directions.contains "right" = true ∧
    a = { command := "TURN_RIGHT", angle := some 45 }) ∨
  (scene.safe_directions.contains "left" = false ∧
    scene.safe_directions.contains "right" = false ∧
    a = { command := "BACKWARD", duration := some 1 })

/-- A concrete obstacle-avoidance trigger scene: a center-near blocking
chair with "left" listed safe. -/
def blocked_scene : AgentScene :=
  { objects := [{ name := "chair", position := some "center", distance := some "near" }],
    obstacles := ["chair"],
    safe_directions := ["left"] }

/-- A concrete scene holding a centered, near "cup". -/
def cup_scene : AgentScene :=
  { objects := [{ name := "cup", position := some "center", distance := some "near" }] }

/-- A concrete investigate goal targeting "cup". -/
def cup_goal : AgentGoal :=
  { type := "investigate", target := some "cup", priority := 6 }

/-- Fresh agent state about to investigate the cup. -/
def cup_state0 : AgentState :=
  { current_goal := some cup_goal }

/-- First completion of the investigate behavior on the cup. -/
def cup_run1 : AgentState × Option ActionDict :=
  investigate_behavior 4 {} 0 cup_state0 (some cup_scene)

/-- The state after the first completion, with the investigate goal for
the same label set again (as the curious explore branch may do). -/
def cup_state1 : AgentState :=
  { cup_run1.1 with current_goal := some cup_goal }

/-- Second completion of the investigate behavior on the same cup. -/
def cup_run2 : AgentState × Option ActionDict :=
  investigate_behavior 4 {} 0 cup_state1 (some cup_scene)

/-! ## Theorems for the claims -/

/-- A non-final avoidance trigger (the incremented counter is still below
the threshold) bumps the stuck counter and produces an escape action. -/
theorem avoid_obstacle_not_yet (st : AgentState) (s : AgentScene)
    (h : st.stuck_counter + 1 < max_stuck_count) :
    (avoid_obstacle st s).1.stuck_counter = st.stuck_counter + 1 ∧
    escape_action s (avoid_obstacle st s).2 := by
  have h' : ¬ st.stuck_counter + 1 ≥ max_stuck_count := not_le.mpr h
  by_cases hl : s.safe_directions.contains "left" = true
  · have hl' : "left" ∈ s.safe_directions := by simpa using hl
    exact ⟨by simp [avoid_obstacle, h', hl'],
      Or.inl ⟨hl, by simp [avoid_obstacle, h', hl']⟩⟩
  · rw [Bool.not_eq_true] at hl
    have hl' : "left" ∉ s.safe_directions := by simpa using hl
    by_cases hr : s.safe_directions.contains "right" = true
    · have hr' : "right" ∈ s.safe_directions := by simpa using hr
      exact ⟨by simp [avoid_obstacle, h', hl', hr'],
        Or.inr (Or.inl ⟨hl, hr, by simp [avoid_obstacle, h', hl', hr']⟩)⟩
    · rw [Bool.not_eq_true] at hr
      have hr' : "right" ∉ s.safe_directions := by simpa using hr
      exact ⟨by simp [avoid_obstacle, h', hl', hr'],
        Or.inr (Or.inr ⟨hl, hr, by simp [avoid_obstacle, h', hl', hr']⟩)⟩

/-- A final avoidance trigger (the incremented counter reaches the
threshold) rests for 5 seconds and resets the stuck counter. -/
theorem avoid_obstacle_rest (st : AgentState) (s : AgentScene)
    (h : max_stuck_count ≤ st.stuck_counter + 1) :
    (avoid_obstacle st s).1.stuck_counter = 0 ∧
    (avoid_obstacle st s).2 = { command := "STOP", duration := some 5 } := by
  constructor <;> simp [avoid_obstacle, h]

/-- C1: the claim says the scene parser is total — for every input it
returns a well-formed snapshot and never raises, including when the text
decodes as valid JSON that is not a JSON object.  The code contradicts
this: its `except` clause catches only `json.JSONDecodeError`, so on the
inputs "42" and "[1, 2]" (valid JSON, not objects) the `data.get`
attribute lookup raises an uncaught `AttributeError`.  This theorem
evaluates the embedded parser at those failing inputs. -/
theorem C1_parse_raises_on_non_object_json :
    parse_scene_json 0 "42" = .error .attributeError ∧
    parse_scene_json 0 "[1, 2]" = .error .attributeError :=
  ⟨rfl, rfl⟩

/-- C5: for every input whose fence-extracted content decodes as a JSON
object, parsing succeeds and each of the seven schema fields round-trips
the value present under its key, while each missing key receives exactly
its documented default (objects=[], scene_type="unknown", obstacles=[],
people_count=0, safe_directions=[], description="", confidence=0.5). -/
theorem C5_parse_round_trips_fields_with_defaults (now : ℚ) (raw : String)
    (kvs : List (String × Json))
    (h : json_loads (extract_fenced raw) = some (.obj kvs)) :
    ∃ s, parse_scene_json now raw = .ok s ∧
      (∀ v, pyGet kvs "objects" = some v → s.objects = v) ∧
      (pyGet kvs "objects" = none → s.objects = Json.arr []) ∧
      (∀ v, pyGet kvs "scene_type" = some v → s.scene_type = v) ∧
      (pyGet kvs "scene_type" = none → s.scene_type = Json.str "unknown") ∧
      (∀ v, pyGet kvs "obstacles" = some v → s.obstacles = v) ∧
      (pyGet kvs "obstacles" = none → s.obstacles = Json.arr []) ∧
      (∀ v, pyGet kvs "people_count" = some v → s.people_count = v) ∧
      (pyGet kvs "people_count" = none → s.people_count = Json.num (mkRat 0 1)) ∧
      (∀ v, pyGet kvs "safe_directions" = some v → s.safe_directions = v) ∧
      (pyGet kvs "safe_directions" = none → s.safe_directions = Json.arr []) ∧
      (∀ v, pyGet kvs "description" = some v → s.description = v) ∧
      (pyGet kvs "description" = none → s.description = Json.str "") ∧
      (∀ v, pyGet kvs "confidence" = some v → s.confidence = v) ∧
      (pyGet kvs "confidence" = none → s.confidence = Json.num (mkRat 1 2)) := by
  refine ⟨build_scene now kvs, ?_, ?_, ?_, ?_, ?_, ?_, ?_, ?_, ?_, ?_, ?_, ?_, ?_, ?_, ?_⟩
  · simp [parse_scene_json, h]
  all_goals
    first
    | (intro v hv; simp [build_scene, pyGetD, hv])
    | (intro hv; simp [build_scene, pyGetD, hv])

/-- Witness for C5 at the empty object (every field takes its default)
and at a fully populated object (every field round-trips). -/
theorem C5_witness :
    (∃ s, parse_scene_json 0 "\x7b\x7d" = .ok s ∧
      s.description = Json.str "" ∧ s.confidence = Json.num (mkRat 1 2) ∧
      s.objects = Json.arr [] ∧ s.people_count = Json.num (mkRat 0 1)) ∧
    (∃ s, parse_scene_json 0
        "\x7b\"scene_type\": \"kitchen\", \"people_count\": 2\x7d" = .ok s ∧
      s.scene_type = Json.str "kitchen" ∧ s.people_count = Json.num (mkRat 2 1)) := by
  constructor
  · obtain ⟨s, hs, h1, h2, h3, h4, h5, h6, h7, h8, h9, h10, h11, h12, h13, h14⟩ :=
      C5_parse_round_trips_fields_with_defaults 0 "\x7b\x7d" [] rfl
    exact ⟨s, hs, h12 rfl, h14 rfl, h2 rfl, h8 rfl⟩
  · obtain ⟨s, hs, h1, h2, h3, h4, h5, h6, h7, h8, h9, h10, h11, h12, h13, h14⟩ :=
      C5_parse_round_trips_fields_with_defaults 0
        "\x7b\"scene_type\": \"kitchen\", \"people_count\": 2\x7d"
        [("scene_type", .str "kitchen"), ("people_count", .num (mkRat 2 1))] rfl
    exact ⟨s, hs, h3 _ rfl, h7 _ rfl⟩

/-- C6 counterexample: the claim says that on decode failure the degraded
snapshot's description equals the ORIGINAL input text, also for fenced
inputs.  On the fenced non-JSON input below the code instead stores the
fence-extracted text ("not json"), because `_parse_scene_json` reassigns
`content` to the extracted block before the fallback runs. -/
theorem C6_counterexample :
    parse_scene_json 0 "```\nnot json\n```" = .ok (degraded_scene 0 "not json") ∧
    (degraded_scene 0 "not json").description = Json.str "not json" ∧
    "not json" ≠ "```\nnot json\n```" :=
  ⟨rfl, rfl, by decide⟩

/-- C6 as amended: on decode failure the parser returns the degraded
snapshot whose description is the FENCE-EXTRACTED content (which equals
the original input exactly when the input contains no code fence) and
whose confidence is the fixed degraded 0.3. -/
theorem C6_degraded_uses_extracted_text (now : ℚ) (raw : String)
    (h : json_loads (extract_fenced raw) = none) :
    parse_scene_json now raw = .ok (degraded_scene now (extract_fenced raw)) ∧
    (degraded_scene now (extract_fenced raw)).description = Json.str (extract_fenced raw) ∧
    (degraded_scene now (extract_fenced raw)).confidence = Json.num (mkRat 3 10) ∧
    (hasSub raw "```json" = false → hasSub raw "```" = false → extract_fenced raw = raw) := by
  refine ⟨?_, rfl, rfl, ?_⟩
  · simp [parse_scene_json, h]
  · intro h1 h2
    simp [extract_fenced, h1, h2]

/-- Witness for C6 as amended, at a plain (unfenced) non-JSON input:
description is the input itself and confidence 0.3. -/
theorem C6_witness :
    parse_scene_json 0 "just a plain description" =
      .ok (degraded_scene 0 (extract_fenced "just a plain description")) ∧
    extract_fenced "just a plain description" = "just a plain description" := by
  have h := C6_degraded_uses_extracted_text 0 "just a plain description" rfl
  exact ⟨h.1, h.2.2.2 rfl rfl⟩

/-- C7: a failed scene request (timeout, raised exception, or non-200
status) yields no snapshot — no exception reaches the vision loop, the
single request is not retried (the embedded cycle consumes exactly one
request outcome), and the cached latest scene is left unchanged. -/
theorem C7_failed_request_keeps_last_snapshot (latest : Option SceneUnderstanding)
    (now : ℚ) (o : SceneRequestOutcome) (h : o.isFailure) :
    analyze_scene_async now o = none ∧ vision_cycle latest now o = latest := by
  cases o with
  | timeout => exact ⟨rfl, rfl⟩
  | exn => exact ⟨rfl, rfl⟩
  | response status content =>
      have hs : status ≠ 200 := h
      constructor
      · simp [analyze_scene_async, hs]
      · simp [vision_cycle, analyze_scene_async, hs]

/-- Witness for C7: a 500-status response leaves a previously cached
degraded snapshot in place. -/
theorem C7_witness :
    (SceneRequestOutcome.response 500 "oops").isFailure ∧
    analyze_scene_async 0 (.response 500 "oops") = none ∧
    vision_cycle (some (degraded_scene 0 "s")) 0 (.response 500 "oops") =
      some (degraded_scene 0 "s") := by
  have h := C7_failed_request_keeps_last_snapshot (some (degraded_scene 0 "s")) 0
    (.response 500 "oops") (by decide)
  exact ⟨by decide, h.1, h.2⟩

/-- C2: in autonomous mode, any decision tick whose navigation signal
carries a non-empty critical-alert list fuses to a STOP command with the
`critical_alert` reason, whatever strategy (including one recommending
FORWARD) is concurrently cached. -/
theorem C2_critical_alert_wins (strategy : Option VisionStrategy)
    (nav : NavigationData) (h : nav.critical_alerts ≠ []) :
    decide_action strategy (some nav) =
      some { action := "STOP", reason := some "critical_alert" } := by
  have hfire : crit_alert_fires (some nav) = true := by
    cases hl : nav.critical_alerts with
    | nil => exact absurd hl h
    | cons a l => simp [crit_alert_fires, hl]
  simp [decide_action, hfire]

/-- Witness for C2: a strategy recommending FORWARD together with one
critical alert still yields STOP. -/
theorem C2_witness :
    (["CRITICAL: person detected"] : List String) ≠ [] ∧
    decide_action
      (some { scene_description := "", navigation_guidance := "",
              recommended_action := "FORWARD", confidence := 1, timestamp := 0 })
      (some { obstacles := [], safe_directions := [],
              critical_alerts := ["CRITICAL: person detected"] }) =
      some { action := "STOP", reason := some "critical_alert" } :=
  ⟨by decide,
   C2_critical_alert_wins _ _ (by decide)⟩

/-- C3 counterexample: the claim says assisted mode emits exactly ONE
STOP command even when the critical-alert list holds more than one
alert; the code's `for alert in nav_data.critical_alerts` loop emits one
STOP per alert, so two alerts produce two commands. -/
theorem C3_counterexample :
    process_assisted true
      { obstacles := [], safe_directions := [],
        critical_alerts := ["CRITICAL: person detected", "CRITICAL: chair detected"] } =
      [{ action := "STOP", reason := some "CRITICAL: person detected" },
       { action := "STOP", reason := some "CRITICAL: chair detected" }] ∧
    (process_assisted true
      { obstacles := [], safe_directions := [],
        critical_alerts := ["CRITICAL: person detected", "CRITICAL: chair detected"] }).length
      = 2 ∧ (2 : ℕ) ≠ 1 :=
  ⟨rfl, rfl, by decide⟩

/-- C3 as amended: in assisted mode the Arbiter emits one STOP per
critical alert (hence exactly one when exactly one alert fires); an
alert-free signal emits nothing; and every emitted command is a STOP
tagged with a reason — never a non-stop command. -/
theorem C3_one_stop_per_alert (hp : Bool) (nav : NavigationData) :
    (process_assisted true nav).length = nav.critical_alerts.length ∧
    (nav.critical_alerts = [] → process_assisted hp nav = []) ∧
    (∀ c ∈ process_assisted hp nav, c.action = "STOP" ∧ c.reason ≠ none) := by
  refine ⟨by simp [process_assisted], ?_, ?_⟩
  · intro hempty
    cases hp <;> simp [process_assisted, hempty]
  · intro c hc
    cases hp with
    | false => simp [process_assisted] at hc
    | true =>
        simp only [process_assisted, Bool.not_true, Bool.false_eq_true, if_false,
          List.mem_map] at hc
        obtain ⟨a, _, rfl⟩ := hc
        exact ⟨rfl, by simp⟩

/-- Witness for C3 as amended: a single alert yields exactly one STOP
command carrying that alert as its reason. -/
theorem C3_witness :
    (process_assisted true
      { obstacles := [], safe_directions := [],
        critical_alerts := ["CRITICAL: person detected"] }).length = 1 ∧
    ({ action := "STOP", reason := some "CRITICAL: person detected" } : Cmd).action
      = "STOP" := by
  have h := C3_one_stop_per_alert true
    { obstacles := [], safe_directions := [],
      critical_alerts := ["CRITICAL: person detected"] }
  refine ⟨by simpa using h.1, ?_⟩
  exact (h.2.2 { action := "STOP", reason := some "CRITICAL: person detected" }
    (by simp [process_assisted])).1

/-- C4 counterexample: the claim says clearance ties are broken by
preferring center/forward; with LEFT and CENTER tied at the maximum the
code's `max` over the dict (iteration order LEFT, CENTER, RIGHT) keeps
the FIRST maximal key and emits a LEFT turn, not FORWARD. -/
theorem C4_counterexample :
    decide_action none
      (some { obstacles := [],
              safe_directions := [("LEFT", 200), ("CENTER", 200), ("RIGHT", 0)],
              critical_alerts := [] }) =
      some { action := "LEFT", source := some "hailo" } ∧
    "LEFT" ≠ "FORWARD" :=
  ⟨rfl, by decide⟩

/-- C4 as amended: with no critical alert and no non-ASSESS strategy, the
emitted command is decided by the FIRST direction attaining the maximum
clearance in the map's LEFT, CENTER, RIGHT iteration order (so ties
prefer LEFT, then CENTER), and a CENTER winner yields FORWARD only when
its clearance exceeds 100, otherwise STOP with reason `no_safe_path`. -/
theorem C4_safest_direction_first_max (l c r : ℚ) (strategy : Option VisionStrategy)
    (obst : List Detection) (dc : Option ℚ) (pt : List ℤ)
    (hstrat : strategy = none ∨
      ∃ st, strategy = some st ∧ st.recommended_action = "ASSESS") :
    decide_action strategy
      (some { obstacles := obst,
              safe_directions := [("LEFT", l), ("CENTER", c), ("RIGHT", r)],
              critical_alerts := [], depth_center := dc, person_tracks := pt }) =
      (if r > l ∧ r > c then some { action := "RIGHT", source := some "hailo" }
       else if c > l then
         (if c > 100 then some { action := "FORWARD", source := some "hailo" }
          else some { action := "STOP", reason := some "no_safe_path" })
       else some { action := "LEFT", source := some "hailo" }) := by
  have hchoice : hailo_choice
      { obstacles := obst,
        safe_directions := [("LEFT", l), ("CENTER", c), ("RIGHT", r)],
        critical_alerts := [], depth_center := dc, person_tracks := pt } =
      (if r > l ∧ r > c then some { action := "RIGHT", source := some "hailo" }
       else if c > l then
         (if c > 100 then some { action := "FORWARD", source := some "hailo" }
          else some { action := "STOP", reason := some "no_safe_path" })
       else some { action := "LEFT", source := some "hailo" }) := by
    simp only [hailo_choice, pyMaxKeyByVal, maxKeyGo, dictVal]
    rcases lt_trichotomy l c with hlc | hlc | hlc
    · rcases le_or_lt r c with hrc | hrc
      · have h1 : ¬(r > l ∧ r > c) := by
          rintro ⟨-, h2⟩
          exact absurd hrc (not_le.mpr h2)
        have hcl : c > l := hlc
        simp only [if_pos hlc, not_lt.mpr hrc, if_false, if_neg h1, if_pos hcl]
        simp
      · have h1 : r > l ∧ r > c := ⟨lt_trans hlc hrc, hrc⟩
        simp only [if_pos hlc, if_pos hrc, if_pos h1]
        simp
    · subst hlc
      have hnl : ¬(l < l) := lt_irrefl l
      rcases le_or_lt r l with hrl | hrl
      · have h1 : ¬(r > l ∧ r > l) := by
          rintro ⟨h2, -⟩
          exact absurd hrl (not_le.mpr h2)
        simp only [if_neg hnl, not_lt.mpr hrl, if_false, if_neg h1]
        simp
      · have h1 : r > l ∧ r > l := ⟨hrl, hrl⟩
        simp only [if_neg hnl, if_pos hrl, if_pos h1]
        simp
    · have hncl : ¬(l < c) := not_lt.mpr (le_of_lt hlc)
      rcases le_or_lt r l with hrl | hrl
      · have h1 : ¬(r > l ∧ r > c) := by
          rintro ⟨h2, -⟩
          exact absurd hrl (not_le.mpr h2)
        have h2 : ¬(c > l) := not_lt.mpr (le_of_lt hlc)
        simp only [if_neg hncl, not_lt.mpr hrl, if_false, if_neg h1, if_neg h2]
        simp
      · have h1 : r > l ∧ r > c := ⟨hrl, lt_trans hlc hrl⟩
        simp only [if_neg hncl, if_pos hrl, if_pos h1]
        simp
  rcases hstrat with rfl | ⟨st, rfl, hst⟩
  · simpa [decide_action, crit_alert_fires, hailo_fallback] using hchoice
  · simpa [decide_action, crit_alert_fires, hailo_fallback, hst] using hchoice

/-- Witness for C4 as amended: CENTER is the unique maximum but its
clearance (2) does not exceed 100, so the command is STOP with reason
`no_safe_path` (not FORWARD). -/
theorem C4_witness :
    decide_action none
      (some { obstacles := [], safe_directions := [("LEFT", 1), ("CENTER", 2), ("RIGHT", 0)],
              critical_alerts := [] }) =
      some { action := "STOP", reason := some "no_safe_path" } := by
  have h := C4_safest_direction_first_max 1 2 0 none [] none [] (Or.inl rfl)
  rw [h]
  norm_num

/-- C8: starting from a zero stuck counter, five consecutive
obstacle-avoidance triggers (scenes reporting obstacles with a blocked
path) produce escape actions on the first four — a 45° turn toward a
listed safe direction or, absent one, a timed backward command — while
the fifth produces a timed rest (STOP with positive duration 5) and
resets the stuck counter to 0. -/
theorem C8_fifth_trigger_rests (st0 : AgentState) (s1 s2 s3 s4 s5 : AgentScene)
    (h0 : st0.stuck_counter = 0)
    (_ht1 : s1.obstacles ≠ [] ∧ is_path_blocked s1 = true)
    (_ht2 : s2.obstacles ≠ [] ∧ is_path_blocked s2 = true)
    (_ht3 : s3.obstacles ≠ [] ∧ is_path_blocked s3 = true)
    (_ht4 : s4.obstacles ≠ [] ∧ is_path_blocked s4 = true)
    (_ht5 : s5.obstacles ≠ [] ∧ is_path_blocked s5 = true) :
    escape_action s1 (avoid_obstacle st0 s1).2 ∧
    escape_action s2 (avoid_obstacle (avoid_obstacle st0 s1).1 s2).2 ∧
    escape_action s3
      (avoid_obstacle (avoid_obstacle (avoid_obstacle st0 s1).1 s2).1 s3).2 ∧
    escape_action s4
      (avoid_obstacle (avoid_obstacle (avoid_obstacle
        (avoid_obstacle st0 s1).1 s2).1 s3).1 s4).2 ∧
    (avoid_obstacle (avoid_obstacle (avoid_obstacle (avoid_obstacle
      (avoid_obstacle st0 s1).1 s2).1 s3).1 s4).1 s5).2 =
      { command := "STOP", duration := some 5 } ∧
    (0 : ℚ) < 5 ∧
    (avoid_obstacle (avoid_obstacle (avoid_obstacle (avoid_obstacle
      (avoid_obstacle st0 s1).1 s2).1 s3).1 s4).1 s5).1.stuck_counter = 0 := by
  have e1 := avoid_obstacle_not_yet st0 s1 (by rw [h0]; decide)
  have e2 := avoid_obstacle_not_yet (avoid_obstacle st0 s1).1 s2
    (by rw [e1.1, h0]; decide)
  have e3 := avoid_obstacle_not_yet
    (avoid_obstacle (avoid_obstacle st0 s1).1 s2).1 s3
    (by rw [e2.1, e1.1, h0]; decide)
  have e4 := avoid_obstacle_not_yet
    (avoid_obstacle (avoid_obstacle (avoid_obstacle st0 s1).1 s2).1 s3).1 s4
    (by rw [e3.1, e2.1, e1.1, h0]; decide)
  have e5 := avoid_obstacle_rest
    (avoid_obstacle (avoid_obstacle (avoid_obstacle
      (avoid_obstacle st0 s1).1 s2).1 s3).1 s4).1 s5
    (by rw [e4.1, e3.1, e2.1, e1.1, h0]; decide)
  exact ⟨e1.2, e2.2, e3.2, e4.2, e5.2, by norm_num, e5.1⟩

/-- Witness for C8: five identical concrete trigger scenes from the fresh
state — each of the first four turns left (a listed safe direction), the
fifth rests for 5 seconds with the counter back at 0. -/
theorem C8_witness :
    escape_action blocked_scene (avoid_obstacle {} blocked_scene).2 ∧
    (avoid_obstacle (avoid_obstacle (avoid_obstacle (avoid_obstacle
      (avoid_obstacle ({} : AgentState) blocked_scene).1 blocked_scene).1
        blocked_scene).1 blocked_scene).1 blocked_scene).2 =
      { command := "STOP", duration := some 5 } ∧
    (avoid_obstacle (avoid_obstacle (avoid_obstacle (avoid_obstacle
      (avoid_obstacle ({} : AgentState) blocked_scene).1 blocked_scene).1
        blocked_scene).1 blocked_scene).1 blocked_scene).1.stuck_counter = 0 := by
  have h := C8_fifth_trigger_rests {} blocked_scene blocked_scene blocked_scene
    blocked_scene blocked_scene rfl ⟨by decide, rfl⟩ ⟨by decide, rfl⟩
    ⟨by decide, rfl⟩ ⟨by decide, rfl⟩ ⟨by decide, rfl⟩
  exact ⟨h.1, h.2.2.2.2.1, h.2.2.2.2.2.2⟩

/-- C9 counterexample: the claim says a second completed investigation of
an already-marked label does not increment the investigated-objects
counter a second time.  Running the embedded investigate behavior twice
to completion on the same "cup" (re-targeted between runs) leaves the
investigated SET at `["cup"]` but takes the counter from 1 to 2, because
`objects_investigated += 1` is unconditional in the source. -/
theorem C9_counterexample :
    cup_run1.1.objects_investigated = 1 ∧
    cup_run1.1.interesting_objects = ["cup"] ∧
    cup_run2.1.objects_investigated = 2 ∧
    cup_run2.1.interesting_objects = ["cup"] ∧
    (2 : ℕ) ≠ 1 :=
  ⟨rfl, rfl, rfl, rfl, by decide⟩

/-- C9 as amended: marking is idempotent on the investigated-objects SET
— completing the investigate behavior on a label already in the set
leaves the set unchanged — but the investigated-objects COUNTER is
incremented on every completion, including repeats, and the behavior
ends with the 2-second stop. -/
theorem C9_set_idempotent_counter_increments (st : AgentState) (sc : AgentScene)
    (t : String) (g : AgentGoal) (tobj : SceneObj) (fuel : Nat) (rng : Rng) (now : ℚ)
    (hg : st.current_goal = some g) (hgt : g.target = some t)
    (hmem : t ∈ st.interesting_objects)
    (hfind : sc.objects.find? (fun o => o.name = t) = some tobj)
    (hpos : tobj.position = some "center") (hdist : tobj.distance = some "near") :
    (investigate_behavior (fuel + 1) rng now st (some sc)).1.interesting_objects
      = st.interesting_objects ∧
    (investigate_behavior (fuel + 1) rng now st (some sc)).1.objects_investigated
      = st.objects_investigated + 1 ∧
    (investigate_behavior (fuel + 1) rng now st (some sc)).2
      = some { command := "STOP", duration := some 2 } := by
  simp only [investigate_behavior, hg, hgt, hfind, hpos, hdist]
  simp [pySetAdd, hmem]

/-- Witness for C9 as amended: a state that already investigated the cup
(counter 1, set `["cup"]`) completes the behavior again — the set stays
`["cup"]`, the counter becomes 2. -/
theorem C9_witness :
    (investigate_behavior 4 {} 0
      { current_goal := some cup_goal, interesting_objects := ["cup"],
        objects_investigated := 1 } (some cup_scene)).1.interesting_objects = ["cup"] ∧
    (investigate_behavior 4 {} 0
      { current_goal := some cup_goal, interesting_objects := ["cup"],
        objects_investigated := 1 } (some cup_scene)).1.objects_investigated = 2 := by
  have h := C9_set_idempotent_counter_increments
    { current_goal := some cup_goal, interesting_objects := ["cup"],
      objects_investigated := 1 }
    cup_scene "cup" cup_goal
    { name := "cup", position := some "center", distance := some "near" }
    3 {} 0 rfl rfl (by decide) rfl rfl rfl
  exact ⟨h.1, h.2.1⟩

/-- C10: with the sensor pipeline unavailable (no depth map), the
navigation data carries the all-zero clearance map
`{LEFT: 0, CENTER: 0, RIGHT: 0}` rather than an empty one; hence, with no
critical-priority detections and no non-ASSESS strategy, the autonomous
decision step emits a LEFT turn command (LEFT is the first key attaining
the all-zero maximum) instead of emitting no command. -/
theorem C10_no_depth_map_emits_left (dets : List Detection)
    (strategy : Option VisionStrategy)
    (hdet : ∀ d ∈ dets, d.priority ≠ DetectionClass.critical)
    (hstrat : strategy = none ∨
      ∃ st, strategy = some st ∧ st.recommended_action = "ASSESS") :
    (get_navigation_data
      { latest_detections := dets, latest_depth_map := none }).safe_directions =
      [("LEFT", 0), ("CENTER", 0), ("RIGHT", 0)] ∧
    (get_navigation_data
      { latest_detections := dets, latest_depth_map := none }).critical_alerts = [] ∧
    decide_action strategy
      (some (get_navigation_data
        { latest_detections := dets, latest_depth_map := none })) =
      some { action := "LEFT", source := some "hailo" } := by
  have halerts : check_critical_conditions dets none = [] := by
    simp only [check_critical_conditions, List.map_eq_nil_iff, List.filter_eq_nil_iff]
    intro d hd
    simp [beq_eq_false_iff_ne.mpr (hdet d hd)]
  have hnav : (get_navigation_data
      { latest_detections := dets, latest_depth_map := none }).critical_alerts = [] := by
    simp [get_navigation_data, halerts]
  refine ⟨rfl, hnav, ?_⟩
  have hfire : crit_alert_fires (some (get_navigation_data
      { latest_detections := dets, latest_depth_map := none })) = false := by
    simp [crit_alert_fires, hnav]
  have hchoice : hailo_choice (get_navigation_data
      { latest_detections := dets, latest_depth_map := none }) =
      some { action := "LEFT", source := some "hailo" } := by
    simp [hailo_choice, get_navigation_data, analyze_depth_zones, pyMaxKeyByVal, maxKeyGo]
  rcases hstrat with rfl | ⟨st, rfl, hst⟩
  · simp [decide_action, hfire, hailo_fallback, hchoice]
  · simp [decide_action, hfire, hailo_fallback, hchoice, hst]

/-- Witness for C10: no detections, no strategy — the decision is the
LEFT turn sourced from the zero clearance map. -/
theorem C10_witness :
    (get_navigation_data
      { latest_detections := [], latest_depth_map := none }).safe_directions =
      [("LEFT", 0), ("CENTER", 0), ("RIGHT", 0)] ∧
    decide_action none
      (some (get_navigation_data
        { latest_detections := [], latest_depth_map := none })) =
      some { action := "LEFT", source := some "hailo" } := by
  have h := C10_no_depth_map_emits_left [] none (by simp) (Or.inl rfl)
  exact ⟨h.1, h.2.2⟩

end Shifusenpi
